import Mathlib

/-!
Verification development for the FicTrac calibration front-end
(src/src/CVSource.cpp and src/src/ConfigGUI.cpp).

The C++ sources are shallowly embedded as executable Lean functions.
Conventions used throughout:

* `cv::Mat` frames are modelled by shape (rows, cols, channels) plus a flat
  pixel buffer of integers; OpenCV-internal pixel transformations that are
  outside the scope of this repository (Bayer demosaicing) are passed in as
  explicit function parameters.
* Environment interactions (camera probes, backend reads, device clocks,
  disk-write outcomes, console input) are modelled as explicit input data
  consumed by the embedded functions, mirroring the order of the
  corresponding C++ calls.
* C++ `double` variables that only ever hold integral pixel coordinates are
  modelled as `Int`; the cast `static_cast<int>(x + 0.5)` on such a value is
  `castRound`.  Frame rates are likewise modelled as `Int` (only their sign
  and retention matter to the code under verification).
* `std::vector::push_back`/`pop_back`/`back` become list append at the end,
  `List.dropLast` and `List.getLastD`.
-/

namespace FicTrac

/-! ### Frames (cv::Mat abstraction) -/

/-- A captured frame: shape plus flat pixel buffer (row-major). -/
structure Frame where
  rows : Nat
  cols : Nat
  channels : Nat
  buf : List Int
  deriving DecidableEq

/-- Model of `cv::Mat::reshape(cn, newRows)`: the data buffer is untouched,
the row count is forced to `newRows` and the column count rescaled so the
element count is preserved (the real call throws if `newRows` does not
divide the element count; divisibility appears as a hypothesis where it
matters). -/
def Frame.reshape (f : Frame) (cn : Nat) (newRows : Nat) : Frame :=
  { rows := newRows, cols := f.rows * f.cols / newRows, channels := cn, buf := f.buf }

/-- Split a flat buffer into rows of `k` elements (helper for `flipVert`). -/
def chunksExact (k : Nat) (l : List Int) : List (List Int) :=
  if h : k = 0 ∨ l = [] then [] else (l.take k) :: chunksExact k (l.drop k)
termination_by l.length
decreasing_by
  simp only [not_or] at h
  have hk : 0 < k := Nat.pos_of_ne_zero h.1
  have hl : 0 < l.length := List.length_pos.mpr h.2
  simp [List.length_drop]
  omega

/-- Model of `cv::flip(src, dst, 0)`: vertical flip, i.e. the row order of
the buffer is reversed; the shape is unchanged. -/
def Frame.flipVert (f : Frame) : Frame :=
  { f with buf := ((chunksExact (f.cols * f.channels) f.buf).reverse).flatten }

/-- Bayer pattern selector (`CVSource.h`). -/
inductive BayerType
  | BAYER_NONE | BAYER_BGGR | BAYER_GBRG | BAYER_GRBG | BAYER_RGGB
  deriving DecidableEq

/-! ### CVSource state (src/src/CVSource.cpp) -/

/-- Fields of a `CVSource` object relevant to the embedded member
functions.  `capPresent` records whether the `_cap` shared pointer is
non-null (after the constructor's trial chain it always is, since the
video-file trial assigns `_cap` before it can fail). -/
structure CVState where
  _open : Bool
  _live : Bool
  _is_image : Bool
  _width : Int
  _height : Int
  _fps : Int
  _bayerType : BayerType
  _frame_cap : Frame
  _timestamp : Int
  _ms_since_midnight : Int
  capPresent : Bool
  deriving DecidableEq

/-- Outcomes of the environment probes performed by the `CVSource`
constructor on one input token:  `size` is `input.size()`, `stoiOk`
whether `std::stoi(input)` succeeds, `camOpens`/`camFrame` whether
`VideoCapture(id)` opens and delivers a non-empty test frame,
`vidOpens`/`vidFrame` the same for `VideoCapture(input)`, and `imreadOk`
whether `cv::imread(input)` returns a non-empty image. -/
structure SourceProbe where
  size : Nat
  stoiOk : Bool
  camOpens : Bool
  camFrame : Bool
  vidOpens : Bool
  vidFrame : Bool
  imreadOk : Bool
  deriving DecidableEq

/-- Classification assigned by the constructor's ordered trial chain. -/
inductive SrcClass
  | camera | video | image | unresolved
  deriving DecidableEq

/-- The constructor's resolution order (CVSource.cpp lines 26-72): camera id
only if the token has at most 2 characters, parses with `std::stoi`, the
capture opens and a test frame arrives; otherwise video stream with a
successful test capture; otherwise still-image decode; otherwise the source
stays unopened. -/
def classifySource (p : SourceProbe) : SrcClass :=
  if p.size ≤ 2 ∧ p.stoiOk = true ∧ p.camOpens = true ∧ p.camFrame = true then .camera
  else if p.vidOpens = true ∧ p.vidFrame = true then .video
  else if p.imreadOk = true then .image
  else .unresolved

/-- State of a `CVSource` right after construction (CVSource.cpp lines
26-94); `imgFrame` is the decoded image on the image path, `vidW`/`vidH`
the backend-reported dimensions, `camFPS` the camera rate read by
`getFPS()` on the live path. -/
def mkCVSource (p : SourceProbe) (imgFrame : Frame) (vidW vidH : Int) (camFPS : Int) : CVState :=
  let c := classifySource p
  { _open := c ≠ .unresolved
    _live := c = .camera
    _is_image := c = .image
    _width := if c = .image then (imgFrame.cols : Int) else vidW
    _height := if c = .image then (imgFrame.rows : Int) else vidH
    _fps := if c = .camera then camFPS else 0
    _bayerType := .BAYER_NONE
    _frame_cap := if c = .image then imgFrame else { rows := 0, cols := 0, channels := 0, buf := [] }
    _timestamp := 0
    _ms_since_midnight := 0
    capPresent := true }

/-! ### CVSource::grab -/

/-- Environment consulted by one `grab()` call: the streaming read outcome
and delivered frame, the backend stream position `CAP_PROP_POS_MSEC`, and
the two wall clocks. -/
structure GrabEnv where
  readOk : Bool
  readFrame : Frame
  posMsec : Int
  wallClock : Int
  msMidnight : Int
  deriving DecidableEq

/-- Operations performed on the `_cap` capture backend during `grab()`. -/
inductive CapOp
  | capRead        -- `_cap->read(_frame_cap)`
  | capGetPosMsec  -- `_cap->get(cv::CAP_PROP_POS_MSEC)`
  deriving DecidableEq

/-- Result of `grab(cv::Mat& frame)`: updated object state, the output
frame (`none` when the call returns false), and the trace of backend
operations performed. -/
structure GrabResult where
  state : CVState
  retFrame : Option Frame
  ops : List CapOp
  deriving DecidableEq

/-- Model of `cv::COLOR_GRAY2BGR`: every gray pixel is replicated into 3 channels. -/
def grayToBGR (buf : List Int) : List Int :=
  buf.flatMap (fun v => [v, v, v])

/-- The single-row workaround in `grab()` (CVSource.cpp lines 200-203):
a frame with exactly one row is reshaped, keeping its channel count, to a
hard-coded 240 rows. -/
def fixShape (f : Frame) : Frame :=
  if f.rows = 1 then f.reshape f.channels 240 else f

/-- The channel normalisation in `grab()` (CVSource.cpp lines 205-226):
single-channel frames are demosaiced per the configured Bayer pattern
(plain gray-to-BGR promotion for `BAYER_NONE`, which is also the C++
`default`), multi-channel frames are copied through.  `demosaic` stands
for the OpenCV Bayer conversions, which are outside this repository. -/
def colorNormalize (demosaic : BayerType → Frame → List Int) (bt : BayerType) (f : Frame) : Frame :=
  if f.channels = 1 then
    { rows := f.rows, cols := f.cols, channels := 3,
      buf := match bt with
             | .BAYER_BGGR => demosaic .BAYER_BGGR f
             | .BAYER_GBRG => demosaic .BAYER_GBRG f
             | .BAYER_GRBG => demosaic .BAYER_GRBG f
             | .BAYER_RGGB => demosaic .BAYER_RGGB f
             | .BAYER_NONE => grayToBGR f.buf }
  else f

/-- Embedding of `CVSource::grab` (CVSource.cpp lines 186-244).  Returns false when the
source is unopened, or when the source is streaming and the backend read
fails.  Otherwise: the stream-position timestamp is queried from `_cap`
(note: unconditionally, also for image sources), falling back to the wall
clock when non-positive; a single-row frame is reshaped to 240 rows;
single-channel data is demosaiced; the frame is flipped vertically.  The
file-playback pacing block (lines 229-237) only sleeps and is omitted: it
does not affect the returned data or the stored state modelled here. -/
def grab (demosaic : BayerType → Frame → List Int) (s : CVState) (e : GrabEnv) : GrabResult :=
  if s._open = false then { state := s, retFrame := none, ops := [] }
  else if s._is_image = false ∧ e.readOk = false then
    { state := s, retFrame := none, ops := [.capRead] }
  else
    let readOps : List CapOp := if s._is_image = true then [] else [.capRead]
    let frameCap0 := if s._is_image = true then s._frame_cap else e.readFrame
    let ts := e.wallClock
    let tPos := e.posMsec
    let timestamp := if tPos ≤ 0 then ts else tPos
    let frameCap := fixShape frameCap0
    let frameFlp := colorNormalize demosaic s._bayerType frameCap
    { state := { s with _frame_cap := frameCap, _timestamp := timestamp,
                        _ms_since_midnight := e.msMidnight }
      retFrame := some frameFlp.flipVert
      ops := readOps ++ [.capGetPosMsec] }

/-! ### CVSource::getFPS / setFPS -/

/-- Embedding of `CVSource::getFPS` (CVSource.cpp lines 105-112): returns the backend
rate when open, else the stored `_fps`.  `deviceFPS` is the value the
backend reports for `CAP_PROP_FPS`. -/
def getFPS (s : CVState) (deviceFPS : Int) : Int :=
  if s._open = true ∧ s.capPresent = true then deviceFPS else s._fps

/-- Result of `setFPS`: updated state, returned flag, and whether the
rejected-set warning (`LOG_WRN`) was emitted.  The function contains no
error path (`LOG_ERR` never appears in it). -/
structure SetFPSResult where
  state : CVState
  ret : Bool
  warned : Bool
  deriving DecidableEq

/-- Embedding of `CVSource::setFPS` (CVSource.cpp lines 117-132).  `backendAccepts` is
the result of `_cap->set(CAP_PROP_FPS, fps)`.  Note that the local `ret`
is initialised to false and never reassigned in the source. -/
def setFPS (s : CVState) (fps : Int) (backendAccepts : Bool) (deviceFPS : Int) : SetFPSResult :=
  let ret := false
  if s._open = true ∧ s.capPresent = true ∧ 0 < fps then
    if backendAccepts = false then
      { state := { s with _fps := fps }, ret := ret, warned := true }
    else
      { state := { s with _fps := getFPS { s with _fps := s._fps } deviceFPS }, ret := ret, warned := false }
  else
    { state := s, ret := ret, warned := false }

/-! ### ConfigGui input data and mouse handler (src/src/ConfigGUI.cpp) -/

/-- A clicked point.  Mouse callbacks deliver integer pixel coordinates;
`cv::Point2d` merely stores them ("these are just ints in a double
object anyway", ConfigGUI.cpp line 279). -/
abbrev Point := Int × Int

/-- The `ConfigGui::INPUT_MODE` state set (declared in ConfigGui.h, used
throughout ConfigGUI.cpp). -/
inductive INPUT_MODE
  | CIRC_INIT | CIRC_PTS | IGNR_INIT | IGNR_PTS
  | R_INIT | R_SLCT | R_XY | R_YZ | R_XZ | R_EXT | EXIT
  deriving DecidableEq

/-- Embedding of `ConfigGui::INPUT_DATA`: current stage, accumulated points per stage,
dirty flag and cursor position. -/
structure INPUT_DATA where
  mode : INPUT_MODE
  circPts : List Point
  ignrPts : List (List Point)
  sqrPts : List Point
  newEvent : Bool
  cursorPt : Point
  deriving DecidableEq

/-- Mouse events dispatched to `onMouseEvent`. -/
inductive MouseEvent
  | lbuttondown (x y : Int)
  | lbuttonup (x y : Int)
  | rbuttonup (x y : Int)
  | mousemove (x y : Int)
  | other
  deriving DecidableEq

/-- Append a point to the active (last) polygon:
`pdata->ignrPts.back().push_back(p)`. -/
def pushToLast (polys : List (List Point)) (p : Point) : List (List Point) :=
  polys.dropLast ++ [polys.getLastD [] ++ [p]]

/-- Embedding of `onMouseEvent` (ConfigGUI.cpp lines 48-122). -/
def onMouseEvent (ev : MouseEvent) (d : INPUT_DATA) : INPUT_DATA :=
  match ev with
  | .lbuttondown _ _ => d
  | .lbuttonup x y =>
    match d.mode with
    | .CIRC_PTS => { d with circPts := d.circPts ++ [(x, y)], newEvent := true }
    | .IGNR_PTS =>
      -- ensure there is at least one active ignore region, then append
      let polys := if d.ignrPts.isEmpty then d.ignrPts ++ [[]] else d.ignrPts
      { d with ignrPts := pushToLast polys (x, y), newEvent := true }
    | .R_XY | .R_YZ | .R_XZ =>
      { d with sqrPts := d.sqrPts ++ [(x, y)], newEvent := true }
    | _ => d
  | .rbuttonup _ _ =>
    match d.mode with
    | .CIRC_PTS =>
      { d with
          circPts := (if 0 < d.circPts.length then d.circPts.dropLast else d.circPts)
          newEvent := true }
    | .IGNR_PTS =>
      { d with
          ignrPts :=
            (if d.ignrPts.isEmpty then d.ignrPts
             else if (d.ignrPts.getLastD []).isEmpty then d.ignrPts.dropLast
             else d.ignrPts.dropLast ++ [(d.ignrPts.getLastD []).dropLast])
          newEvent := true }
    | .R_XY | .R_YZ | .R_XZ =>
      { d with
          sqrPts := (if 0 < d.sqrPts.length then d.sqrPts.dropLast else d.sqrPts)
          newEvent := true }
    | _ => d
  | .mousemove x y => { d with cursorPt := (x, y) }
  | .other => d

/-- Fold a sequence of left-clicks through `onMouseEvent`. -/
def applyClicks (ps : List Point) (d : INPUT_DATA) : INPUT_DATA :=
  ps.foldl (fun d p => onMouseEvent (.lbuttonup p.1 p.2) d) d

/-! ### Config store interface

The persistent key/value store (`ConfigParser`) is an external collaborator
of this repository; only its interface is modelled: a keyed list of typed
values with replace-or-append `add` and typed getters. -/

/-- Values held by the config store.  `vDbl3` stands for a 3-vector of
doubles (`c2a_r` / `c2a_t`) whose numeric content is outside the scope of
the code under verification. -/
inductive CfgVal
  | vInt (l : List Int)
  | vVVInt (l : List (List Int))
  | vStr (s : String)
  | vDbl3
  deriving DecidableEq

abbrev ConfigStore := List (String × CfgVal)

def cfgLookup : ConfigStore → String → Option CfgVal
  | [], _ => none
  | (k', v) :: rest, k => if k' = k then some v else cfgLookup rest k

/-- Embedding of `ConfigParser::add`: replace the value of an existing key, else append. -/
def cfgAdd : ConfigStore → String → CfgVal → ConfigStore
  | [], k, v => [(k, v)]
  | (k', v') :: rest, k, v =>
    if k' = k then (k, v) :: rest else (k', v') :: cfgAdd rest k v

/-- Embedding of `ConfigParser::getVecInt`. -/
def getVecInt (cfg : ConfigStore) (k : String) : Option (List Int) :=
  match cfgLookup cfg k with
  | some (.vInt l) => some l
  | _ => none

/-- Embedding of `ConfigParser::getVVecInt`. -/
def getVVecInt (cfg : ConfigStore) (k : String) : Option (List (List Int)) :=
  match cfgLookup cfg k with
  | some (.vVVInt l) => some l
  | _ => none

/-- Embedding of `ConfigParser::getStr`.  The underlying store keeps raw text, so the
getter succeeds for any present key; for keys holding non-string values the
retrieved text is never inspected by the code under verification and is
modelled as the empty string. -/
def getStr (cfg : ConfigStore) (k : String) : Option String :=
  match cfgLookup cfg k with
  | some (.vStr s) => some s
  | some _ => some ""
  | none => none

/-- Embedding of `ConfigParser::getVecDbl`, reduced to its success flag (the retrieved
doubles feed only the out-of-scope geometry calls). -/
def getVecDbl (cfg : ConfigStore) (k : String) : Bool :=
  match cfgLookup cfg k with
  | some .vDbl3 => true
  | _ => false

/-! ### Coordinate rounding and flattening -/

/-- The cast `static_cast<int>(x + 0.5)` applied to a double that holds the integer
`x` exactly: truncation toward zero yields `x` for `0 ≤ x` and `x + 1`
for negative `x`. -/
def castRound (x : Int) : Int :=
  if 0 ≤ x then x else x + 1

/-- Dump a point list to a flat int sequence of rounded x,y pairs in click
order (the `cfg_pts` loops at ConfigGUI.cpp lines 509-512, 640-643,
278-281). -/
def flattenPts (pts : List Point) : List Int :=
  pts.flatMap (fun p => [castRound p.1, castRound p.2])

/-- The point-loading loop `for (i = 1; i < size; i += 2)
push_back(Point2d(v[i-1], v[i]))` (ConfigGUI.cpp lines 417-419, 547-549,
687-689): consecutive coordinate pairs, any trailing unpaired value
dropped. -/
def pairUp : List Int → List Point
  | a :: b :: rest => (a, b) :: pairUp rest
  | _ => []

/-! ### Console prompts -/

/-- The keep-existing prompt loop (ConfigGUI.cpp lines 436-460, 570-594,
733-757) as a function of the stdin character stream: returns the decision
and the rest of the stream, or `none` when the stream is exhausted (the C
loop then re-reads EOF forever).  `y`/`Y` fall through into the newline
case after discarding one extra character; a bare newline accepts
directly; `n`/`N` decline after discarding one extra character; anything
else warns, discards one extra character and repeats.  The one-element
clause is the case where the extra discarding `getchar` meets the end of
the stream (in C it consumes nothing and returns EOF). -/
def promptKeep : List Char → Option (Bool × List Char)
  | [] => none
  | [c] =>
    if c = 'y' ∨ c = 'Y' then some (true, [])
    else if c = '\n' then some (true, [])
    else if c = 'n' ∨ c = 'N' then some (false, [])
    else none
  | c :: c2 :: rest =>
    if c = 'y' ∨ c = 'Y' then some (true, rest)
    else if c = '\n' then some (true, c2 :: rest)
    else if c = 'n' ∨ c = 'N' then some (false, rest)
    else promptKeep rest

/-- Leading digit run of a character list, for `std::stoi`. -/
def leadDigits (cs : List Char) : Option Nat :=
  let ds := cs.takeWhile Char.isDigit
  if ds.isEmpty then none
  else some (ds.foldl (fun a c => a * 10 + (c.toNat - '0'.toNat)) 0)

/-- Embedding of `std::stoi` on a line: skip leading whitespace, optional sign, then a
non-empty digit run (trailing junk ignored; overflow, which throws in C++,
is not modelled — the menu only ever sees small numbers). -/
def parseStoi (str : String) : Option Int :=
  let cs := str.toList.dropWhile Char.isWhitespace
  match cs with
  | '-' :: rest => (leadDigits rest).map (fun n => -(n : Int))
  | '+' :: rest => (leadDigits rest).map (fun n => (n : Int))
  | rest => (leadDigits rest).map (fun n => (n : Int))

/-- The method-selection menu loop (ConfigGUI.cpp lines 779-828) over the
stdin line stream: an empty line defaults to 1; a line that does not parse
with `stoi`, or parses to anything outside {1,2,3,5}, warns and repeats.
On an exhausted stream `std::getline` yields an empty string, so the
default 1 is chosen. -/
def selectMethod : List String → Nat × List String
  | [] => (1, [])
  | l :: rest =>
    match (if l = "" then some (1 : Int) else parseStoi l) with
    | none => selectMethod rest
    | some n =>
      if n = 1 ∨ n = 2 ∨ n = 3 ∨ n = 5 then (n.toNat, rest) else selectMethod rest

/-! ### The ConfigGui::run state machine (ConfigGUI.cpp lines 374-1081)

The display/input loop is embedded as one step function per stage plus a
driver.  Out-of-scope collaborators are explicit inputs: the geometry
fits/solves are an oracle of success flags, `_cfg.write()` outcomes are a
stream of booleans, console input is a character stream (for `getchar`
prompts) plus a line stream (for the `getline` menu), and the mouse events
delivered by the window callback during one loop iteration are a list
applied before the stage body runs.  Drawing calls are omitted: they do
not touch the session state. -/

/-- Success flags of the out-of-scope geometry collaborators:
`circleFit_camModel` (does it produce a radius r > 0) and
`computeRtFromSquare` (does the four-point pose solve succeed, per
square mode). -/
structure GeomOracle where
  circleFit : List Point → Bool
  squareSolve : INPUT_MODE → List Point → Bool

/-- Session state of `ConfigGui::run`: `_input_data`, the in-memory
`_cfg`, `_open`, and the loop-persistent locals `key`, `r` (tracked as
"is r > 0"), `R` (tracked as "is the matrix empty") and `cfg_r_src`;
plus the three environment streams. -/
structure GuiState where
  input : INPUT_DATA
  cfg : ConfigStore
  open_ : Bool
  key : Int
  rPos : Bool
  rEmpty : Bool
  cfgRSrc : String
  console : List Char
  lines : List String
  writes : List Bool
  deriving DecidableEq

/-- Inputs of one loop iteration: mouse events delivered by the callback
and the `cv::waitKey(5)` result (consulted only by the stages that read
it). -/
structure Iter where
  mouse : List MouseEvent
  key : Int
  deriving DecidableEq

def enterKey : Int := 0x0a

def exitKey : Int := 0x1b

def fKey : Int := 0x66

/-- Embedding of `ConfigGui::changeState` (ConfigGUI.cpp lines 364-369). -/
def changeState (m : INPUT_MODE) (s : GuiState) : GuiState :=
  { s with input := { s.input with mode := m, newEvent := true } }

/-- Pop the next `_cfg.write()` outcome; an exhausted stream defaults to
success. -/
def popWrite : List Bool → Bool × List Bool
  | [] => (true, [])
  | w :: ws => (w, ws)

/-- Apply the mouse events of one iteration through the callback. -/
def applyMouse (evs : List MouseEvent) (d : INPUT_DATA) : INPUT_DATA :=
  evs.foldl (fun d e => onMouseEvent e d) d

/-- The recurring commit pattern `_cfg.add(...); if (_cfg.write() <= 0)
{ _open = false; }` (ConfigGUI.cpp lines 516-520, 648-652, 1010-1013):
install the updated store, consume one write outcome, and clear `_open`
on failure. -/
def commitWrite (s : GuiState) (cfg' : ConfigStore) : GuiState :=
  let w := popWrite s.writes
  { s with
      cfg := cfg'
      writes := w.2
      open_ := (if w.1 = true then s.open_ else false) }

/-- Tail of the CIRC_INIT case (ConfigGUI.cpp lines 465-469): if the stage
did not advance, clear the circumference points and move to CIRC_PTS. -/
def finishCircInit (s : GuiState) : GuiState :=
  if s.input.mode = .CIRC_INIT then
    changeState .CIRC_PTS { s with input := { s.input with circPts := [] } }
  else s

/-- CIRC_INIT stage body (ConfigGUI.cpp lines 409-470): load `roi_circ`,
and when at least 3 points load and the circle fit yields r > 0, run the
keep-existing prompt; keeping advances to IGNR_INIT. -/
def stepCircInit (o : GeomOracle) (s : GuiState) : Option GuiState :=
  match getVecInt s.cfg "roi_circ" with
  | some cfg_pts =>
    let s := { s with input := { s.input with circPts := pairUp cfg_pts } }
    if 3 ≤ s.input.circPts.length then
      let s := { s with rPos := o.circleFit s.input.circPts }
      if s.rPos = true then
        match promptKeep s.console with
        | none => none
        | some kr =>
          let s := { s with console := kr.2 }
          some (finishCircInit (if kr.1 = true then changeState .IGNR_INIT s else s))
      else some (finishCircInit s)
    else some (finishCircInit s)
  | none => some (finishCircInit s)

/-- CIRC_PTS stage body (ConfigGUI.cpp lines 473-534): refit on a dirty
point set, read the key; Enter with at least 3 points dumps the rounded
points to `roi_circ`, flushes, and advances to IGNR_INIT (a failed flush
clears `_open`); Enter with fewer points only warns. -/
def stepCircPts (o : GeomOracle) (s : GuiState) (key : Int) : GuiState :=
  let s :=
    if s.input.newEvent = true then
      if 3 ≤ s.input.circPts.length then
        { s with
            rPos := o.circleFit s.input.circPts
            input := { s.input with newEvent := false } }
      else
        { s with
            rPos := false
            input := { s.input with newEvent := false } }
    else s
  let s := { s with key := key }
  if s.key = enterKey then
    if 3 ≤ s.input.circPts.length then
      changeState .IGNR_INIT
        (commitWrite s (cfgAdd s.cfg "roi_circ" (.vInt (flattenPts s.input.circPts))))
    else s
  else s

/-- Tail of the IGNR_INIT case (ConfigGUI.cpp lines 597-601). -/
def finishIgnrInit (s : GuiState) : GuiState :=
  if s.input.mode = .IGNR_INIT then
    changeState .IGNR_PTS { s with input := { s.input with ignrPts := [] } }
  else s

/-- IGNR_INIT stage body (ConfigGUI.cpp lines 537-602): load `roi_ignr`
(empty polygons are discarded on load), then run the keep-existing prompt;
keeping advances to R_INIT. -/
def stepIgnrInit (s : GuiState) : Option GuiState :=
  match getVVecInt s.cfg "roi_ignr" with
  | some polys =>
    let s := { s with input := { s.input with ignrPts := (polys.map pairUp).filter (fun l => !l.isEmpty) } }
    match promptKeep s.console with
    | none => none
    | some kr =>
      let s := { s with console := kr.2 }
      some (finishIgnrInit (if kr.1 = true then changeState .R_INIT s else s))
  | none => some (finishIgnrInit s)

/-- IGNR_PTS stage body (ConfigGUI.cpp lines 605-669): Enter with an empty
(or absent) active polygon drops it, dumps the polygons to `roi_ignr`,
flushes and advances to R_INIT; Enter with a non-empty active polygon
starts a new one.  `_input_data.addPoly()` is declared in ConfigGui.h,
which is not under src/; modelled from the spec: it starts a new empty
polygon. -/
def stepIgnrPts (s : GuiState) (key : Int) : GuiState :=
  let s := { s with key := key }
  if s.key = enterKey then
    if s.input.ignrPts.isEmpty = true ∨ (s.input.ignrPts.getLastD []).isEmpty = true then
      let ig := if s.input.ignrPts.isEmpty = true then s.input.ignrPts else s.input.ignrPts.dropLast
      changeState .R_INIT
        { (commitWrite s (cfgAdd s.cfg "roi_ignr" (.vVVInt (ig.map flattenPts)))) with
            input := { s.input with ignrPts := ig } }
    else
      { s with input := { s.input with ignrPts := s.input.ignrPts ++ [[]] } }
  else s

/-- Tail of the R_INIT case (ConfigGUI.cpp lines 760-762). -/
def finishRInit (s : GuiState) : GuiState :=
  if s.input.mode = .R_INIT then changeState .R_SLCT s else s

/-- R_INIT stage body (ConfigGUI.cpp lines 672-763): when `c2a_src` and
the corner/transform keys all read back, run the keep-existing prompt
(keeping advances to EXIT); any failed read falls back to R_SLCT. -/
def stepRInit (s : GuiState) : Option GuiState :=
  match getStr s.cfg "c2a_src" with
  | some src =>
    let s := { s with cfgRSrc := src }
    match getVecInt s.cfg src with
    | none => some (changeState .R_SLCT s)
    | some cfg_pts =>
      let s := { s with input := { s.input with sqrPts := pairUp cfg_pts } }
      if getVecDbl s.cfg "c2a_r" = true then
        let s := { s with rEmpty := false }
        if getVecDbl s.cfg "c2a_t" = true then
          match promptKeep s.console with
          | none => none
          | some kr =>
            let s := { s with console := kr.2 }
            some (finishRInit (if kr.1 = true then changeState .EXIT s else s))
        else some (changeState .R_SLCT s)
      else some (changeState .R_SLCT s)
  | none => some (finishRInit s)

/-- R_SLCT stage body (ConfigGUI.cpp lines 766-829): the textual menu. -/
def stepRSlct (s : GuiState) : GuiState :=
  let r := selectMethod s.lines
  let s := { s with lines := r.2 }
  match r.1 with
  | 1 => changeState .R_XY s
  | 2 => changeState .R_YZ s
  | 3 => changeState .R_XZ s
  | _ => changeState .R_EXT s

/-- Config key for each square mode (`saveC2ATransform` switch,
ConfigGUI.cpp lines 263-274). -/
def sqrKeyFor (m : INPUT_MODE) : String :=
  match m with
  | .R_XY => "c2a_cnrs_xy"
  | .R_YZ => "c2a_cnrs_yz"
  | .R_XZ => "c2a_cnrs_xz"
  | _ => ""

/-- Embedding of `ConfigGui::saveC2ATransform` (ConfigGUI.cpp lines 261-316): dump the
rounded corners under the mode's key, tag `c2a_src`, store the transform
vectors, flush; returns the flush outcome. -/
def saveC2ATransform (s : GuiState) : GuiState × Bool :=
  let cfg := cfgAdd s.cfg (sqrKeyFor s.input.mode) (.vInt (flattenPts s.input.sqrPts))
  let cfg := cfgAdd cfg "c2a_src" (.vStr (sqrKeyFor s.input.mode))
  let cfg := cfgAdd cfg "c2a_r" .vDbl3
  let cfg := cfgAdd cfg "c2a_t" .vDbl3
  let w := popWrite s.writes
  ({ s with cfg := cfg, writes := w.2 }, w.1)

/-- The caller-side flush check of the square stages:
`if (!saveC2ATransform(R, t)) { ... _open = false; }` (ConfigGUI.cpp
lines 860-863, 909-912, 958-961). -/
def applyFlush (s : GuiState) (ok : Bool) : GuiState :=
  { s with open_ := (if ok = true then s.open_ else false) }

/-- Common body of the R_XY / R_YZ / R_XZ stages (ConfigGUI.cpp lines
832-976): with exactly 4 corners and a dirty point set, re-solve the pose
(`updateC2ATransform`, lines 321-336; a successful solve makes `R`
non-empty); Enter with 4 corners and a non-empty `R` saves the transform
(a failed flush clears `_open`) and advances to EXIT, otherwise warns;
the `f` key mirrors an axis of a non-empty `R` and re-marks the point set
dirty. -/
def stepSqr (o : GeomOracle) (s : GuiState) (key : Int) : GuiState :=
  let s :=
    if s.input.sqrPts.length = 4 then
      if s.input.newEvent = true then
        { s with
            rEmpty := (if o.squareSolve s.input.mode s.input.sqrPts = true then false else s.rEmpty)
            input := { s.input with newEvent := false } }
      else s
    else s
  let s := { s with key := key }
  if s.key = enterKey then
    if s.input.sqrPts.length = 4 ∧ s.rEmpty = false then
      let r := saveC2ATransform s
      changeState .EXIT (applyFlush r.1 r.2)
    else s
  else if s.key = fKey then
    (if s.rEmpty = false then { s with input := { s.input with newEvent := true } } else s)
  else s

/-- R_EXT stage body (ConfigGUI.cpp lines 997-1017): ensure a `c2a_r`
placeholder exists, tag `c2a_src` as "ext", flush (a failed flush clears
`_open`) and advance to EXIT. -/
def stepRExt (s : GuiState) : GuiState :=
  let cfg1 := if getStr s.cfg "c2a_r" = none then cfgAdd s.cfg "c2a_r" .vDbl3 else s.cfg
  changeState .EXIT (commitWrite s (cfgAdd cfg1 "c2a_src" (.vStr "ext")))

/-- The stage `switch` of the loop body (ConfigGUI.cpp lines 406-1028).
The EXIT case sets `key = exit_key` (lines 1025-1027).  `none` models a
stage body stuck forever in a console prompt on exhausted stdin. -/
def stepDispatch (o : GeomOracle) (s : GuiState) (k : Int) : Option GuiState :=
  match s.input.mode with
  | .CIRC_INIT => stepCircInit o s
  | .CIRC_PTS => some (stepCircPts o s k)
  | .IGNR_INIT => stepIgnrInit s
  | .IGNR_PTS => some (stepIgnrPts s k)
  | .R_INIT => stepRInit s
  | .R_SLCT => some (stepRSlct s)
  | .R_XY => some (stepSqr o s k)
  | .R_YZ => some (stepSqr o s k)
  | .R_XZ => some (stepSqr o s k)
  | .R_EXT => some (stepRExt s)
  | .EXIT => some { s with key := exitKey }

/-- One iteration of the display/input loop: apply the iteration's mouse
events, then run the current stage's body. -/
def stepStage (o : GeomOracle) (s0 : GuiState) (it : Iter) : Option GuiState :=
  stepDispatch o { s0 with input := applyMouse it.mouse s0.input } it.key

/-- The `while (_open && (key != exit_key))` loop (ConfigGUI.cpp line
400), scripted by a finite list of iteration inputs.  Returns the final
state and the list of stage bodies that actually executed. -/
def loopRun (o : GeomOracle) : List Iter → GuiState → Option (GuiState × List INPUT_MODE)
  | [], s => some (s, [])
  | it :: its, s =>
    if s.open_ = true ∧ s.key ≠ exitKey then
      match stepStage o s it with
      | none => none
      | some s' => (loopRun o its s').map (fun r => (r.1, s.input.mode :: r.2))
    else some (s, [])

/-- Outcome of a whole `ConfigGui::run` call: the epilogue (ConfigGUI.cpp
lines 1031-1080) runs unconditionally after the loop, always attempting
the annotated snapshot write and printing the final status, which is
success exactly when `_open` survived. -/
structure SessionResult where
  final : GuiState
  visited : List INPUT_MODE
  snapshotSaved : Bool
  statusSuccess : Bool
  deriving DecidableEq

/-- Embedding of `ConfigGui::run`: the loop followed by the unconditional epilogue. -/
def runSession (o : GeomOracle) (its : List Iter) (s : GuiState) : Option SessionResult :=
  (loopRun o its s).map
    (fun r => { final := r.1, visited := r.2, snapshotSaved := true, statusSuccess := r.1.open_ })

/-- State at loop entry (ConfigGUI.cpp lines 381-399): empty point sets,
`changeState(CIRC_INIT)` marks the data dirty, `key = 0`, `r = -1`, `R`
and `cfg_r_src` default-constructed, `_open` true (run is only entered on
a successfully constructed object). -/
def initState (cfg : ConfigStore) (console : List Char) (lines : List String) (writes : List Bool) : GuiState :=
  { input := { mode := .CIRC_INIT, circPts := [], ignrPts := [], sqrPts := [],
               newEvent := true, cursorPt := (-1, -1) }
    cfg := cfg
    open_ := true
    key := 0
    rPos := false
    rEmpty := true
    cfgRSrc := ""
    console := console
    lines := lines
    writes := writes }

/-! ### Concrete fixtures used by counterexamples and witnesses -/

/-- Oracle with always-succeeding geometry calls. -/
def oracleTrue : GeomOracle := ⟨fun _ => true, fun _ _ => true⟩

/-- A trivial stand-in for the out-of-scope Bayer conversions. -/
def demoBayer : BayerType → Frame → List Int := fun _ f => f.buf

/-- A small decoded 2x2 3-channel image. -/
def imgSmall : Frame := ⟨2, 2, 3, [1, 2, 3, 4, 5, 6, 7, 8, 9, 10, 11, 12]⟩

/-- An open image source caching `imgSmall`. -/
def imgSrc : CVState :=
  ⟨true, false, true, 2, 2, 0, .BAYER_NONE, imgSmall, 0, 0, true⟩

/-- A grab environment whose backend read would fail and whose stream
position is junk (0), as on the image path. -/
def imgGrabEnv : GrabEnv := ⟨false, ⟨0, 0, 0, []⟩, 0, 555, 42⟩

/-- An open video source configured at height 480. -/
def vidSrc480 : CVState :=
  ⟨true, false, false, 320, 480, 0, .BAYER_NONE, ⟨0, 0, 0, []⟩, 0, 0, true⟩

/-- A grab environment delivering the known backend defect: a 480-sample
frame flattened to a single row. -/
def rowGrabEnv : GrabEnv := ⟨true, ⟨1, 480, 1, List.replicate 480 0⟩, 7, 555, 42⟩

/-- Iteration script: one CIRC_INIT pass, then three circumference clicks
at (10,10), (50,10), (30,40) committed with Enter, then two idle
iterations. -/
def circClickScript : List Iter :=
  [⟨[], 0⟩,
   ⟨[.lbuttonup 10 10, .lbuttonup 50 10, .lbuttonup 30 40], enterKey⟩,
   ⟨[], 0⟩, ⟨[], 0⟩]

/-- Session start: empty config, no console input, failing disk. -/
def failingDiskStart : GuiState := initState [] [] [] [false]

/-- Session start: empty config, no console input, healthy disk. -/
def healthyDiskStart : GuiState := initState [] [] [] [true]

/-- A CIRC_PTS state holding three clicked points over a failing disk. -/
def circPtsReady : GuiState :=
  { failingDiskStart with
      input := { failingDiskStart.input with
                   mode := .CIRC_PTS
                   circPts := [(10, 10), (50, 10), (30, 40)] } }

/-- A state already marked failed (as after a failed flush). -/
def failedState : GuiState := { failingDiskStart with open_ := false }

/-- An IGNR_PTS input state whose single polygon holds one point. -/
def onePtPoly : INPUT_DATA := ⟨.IGNR_PTS, [], [[(7, 8)]], [], false, (0, 0)⟩

/-- An IGNR_PTS input state with no polygons. -/
def noPoly : INPUT_DATA := ⟨.IGNR_PTS, [], [], [], false, (0, 0)⟩

/-- CIRC_INIT start state over a config holding an odd-length `roi_circ`
with seven values, console answering keep. -/
def oddCircStart : GuiState :=
  initState [("roi_circ", .vInt [10, 20, 30, 40, 50, 60, 70])] ['y', '\n'] [] []

/-- IGNR_INIT state over a config holding `roi_ignr` with an odd-length
polygon and a one-value polygon, console answering keep. -/
def oddIgnrStart : GuiState :=
  { (initState [("roi_ignr", .vVVInt [[1, 2, 3, 4, 5], [6]])] ['y', '\n'] [] []) with
      input := { (initState [] [] [] []).input with mode := .IGNR_INIT } }

/-- R_INIT state over a config holding a nine-value corner list plus the
transform keys, console answering keep. -/
def oddSqrStart : GuiState :=
  { (initState
      [("c2a_src", .vStr "c2a_cnrs_xy"),
       ("c2a_cnrs_xy", .vInt [1, 2, 3, 4, 5, 6, 7, 8, 9]),
       ("c2a_r", .vDbl3), ("c2a_t", .vDbl3)] ['y', '\n'] [] []) with
      input := { (initState [] [] [] []).input with mode := .R_INIT } }

/-- An IGNR_PTS input state whose single polygon holds two points. -/
def twoPtPoly : INPUT_DATA := ⟨.IGNR_PTS, [], [[(3, 4), (5, 6)]], [], false, (0, 0)⟩

/-- A CIRC_PTS input state holding one already-clicked point. -/
def oneCircPt : INPUT_DATA := ⟨.CIRC_PTS, [(1, 2)], [], [], false, (0, 0)⟩

/-! ### Helper lemmas -/

theorem cfgLookup_cfgAdd (cfg : ConfigStore) (k : String) (v : CfgVal) :
    cfgLookup (cfgAdd cfg k v) k = some v := by
  induction cfg with
  | nil => simp [cfgAdd, cfgLookup]
  | cons e rest ih =>
    by_cases h : e.1 = k
    · simp [cfgAdd, cfgLookup, h]
    · simp only [cfgAdd]
      rw [if_neg h]
      simp [cfgLookup, h, ih]

theorem getVecInt_cfgAdd (cfg : ConfigStore) (k : String) (l : List Int) :
    getVecInt (cfgAdd cfg k (.vInt l)) k = some l := by
  simp [getVecInt, cfgLookup_cfgAdd]

theorem onMouseEvent_mode (ev : MouseEvent) (d : INPUT_DATA) :
    (onMouseEvent ev d).mode = d.mode := by
  cases ev <;> cases hm : d.mode <;> simp [onMouseEvent, hm]

theorem applyClicks_cons (p : Point) (ps : List Point) (d : INPUT_DATA) :
    applyClicks (p :: ps) d = applyClicks ps (onMouseEvent (.lbuttonup p.1 p.2) d) := rfl

theorem applyClicks_mode (ps : List Point) (d : INPUT_DATA) :
    (applyClicks ps d).mode = d.mode := by
  induction ps generalizing d with
  | nil => rfl
  | cons p ps ih => rw [applyClicks_cons, ih, onMouseEvent_mode]

theorem applyClicks_circ (ps : List Point) (d : INPUT_DATA) (h : d.mode = .CIRC_PTS) :
    (applyClicks ps d).circPts = d.circPts ++ ps := by
  induction ps generalizing d with
  | nil => simp [applyClicks]
  | cons p ps ih =>
    rw [applyClicks_cons, ih _ (by rw [onMouseEvent_mode]; exact h)]
    simp [onMouseEvent, h]

theorem applyClicks_sqr (ps : List Point) (d : INPUT_DATA)
    (h : d.mode = .R_XY ∨ d.mode = .R_YZ ∨ d.mode = .R_XZ) :
    (applyClicks ps d).sqrPts = d.sqrPts ++ ps := by
  induction ps generalizing d with
  | nil => simp [applyClicks]
  | cons p ps ih =>
    rw [applyClicks_cons, ih _ (by rw [onMouseEvent_mode]; exact h)]
    rcases h with h | h | h <;> simp [onMouseEvent, h]

theorem applyClicks_ignr (ps : List Point) (qs : List (List Point)) (l : List Point)
    (d : INPUT_DATA) (h : d.mode = .IGNR_PTS) (hq : d.ignrPts = qs ++ [l]) :
    (applyClicks ps d).ignrPts = qs ++ [l ++ ps] := by
  induction ps generalizing d l with
  | nil => simp [applyClicks, hq]
  | cons p ps ih =>
    have hmode' : (onMouseEvent (.lbuttonup p.1 p.2) d).mode = .IGNR_PTS := by
      rw [onMouseEvent_mode]; exact h
    have hpts : (onMouseEvent (.lbuttonup p.1 p.2) d).ignrPts = qs ++ [l ++ [p]] := by
      simp [onMouseEvent, h, hq, pushToLast, List.getLastD_concat]
    rw [applyClicks_cons, ih (l ++ [p]) _ hmode' hpts]
    simp

theorem applyClicks_ignr_nil (p : Point) (ps : List Point) (d : INPUT_DATA)
    (h : d.mode = .IGNR_PTS) (hq : d.ignrPts = []) :
    (applyClicks (p :: ps) d).ignrPts = [p :: ps] := by
  rw [applyClicks_cons]
  have h1 : (onMouseEvent (.lbuttonup p.1 p.2) d).ignrPts = [] ++ [[p]] := by
    simp [onMouseEvent, h, hq, pushToLast]
  rw [applyClicks_ignr ps [] [p] _ (by rw [onMouseEvent_mode]; exact h) h1]
  simp

/-! ### Claim C7 -/

/-- C7, counterexample to the claim as stated: a bare Enter is accepted
but consumes no extra input token after the answer character — with stream
newline-then-x the remaining stream still holds x, whereas one extra
consumed token would leave the stream empty (contrast the y case, which
does discard one). -/
theorem c7_counterexample :
    promptKeep ['\n', 'x'] = some (true, ['x'])
    ∧ promptKeep ['\n', 'x'] ≠ some (true, [])
    ∧ promptKeep ['y', '\n', 'x'] = some (true, ['x']) := by
  refine ⟨by decide, by decide, by decide⟩

/-- C7, amended: at every keep-existing prompt, bare Enter and y/Y are
equivalent accept signals, but only y/Y (and n/N) consume one extra input
token after the answer character; bare Enter consumes none. -/
theorem c7_theorem (rest : List Char) :
    promptKeep ('y' :: rest) = some (true, rest.tail)
    ∧ promptKeep ('Y' :: rest) = some (true, rest.tail)
    ∧ promptKeep ('\n' :: rest) = some (true, rest)
    ∧ promptKeep ('n' :: rest) = some (false, rest.tail)
    ∧ promptKeep ('N' :: rest) = some (false, rest.tail) := by
  refine ⟨?_, ?_, ?_, ?_, ?_⟩ <;> cases rest <;> simp [promptKeep]

/-! ### Claim C6 -/

/-- C6, counterexample to the claim as stated: a right-click on a single
one-point polygon removes the point but does not delete the polygon that
is thereby emptied — an empty polygon remains in the list (it is only
deleted by a subsequent right-click). -/
theorem c6_counterexample :
    (onMouseEvent (.rbuttonup 0 0) onePtPoly).ignrPts = [[]]
    ∧ (onMouseEvent (.rbuttonup 0 0) onePtPoly).ignrPts ≠ [] := by
  refine ⟨by decide, by decide⟩

/-- C6, amended: in the IgnorePoints stage a right-click removes the
active (last) polygon's last point when that polygon is non-empty — the
polygon is retained even if thereby emptied; when the active polygon is
already empty, the right-click deletes the polygon instead; with zero
polygons the polygon list is unchanged. -/
theorem c6_theorem (d : INPUT_DATA) (x y : Int) (hmode : d.mode = .IGNR_PTS) :
    (d.ignrPts = [] → (onMouseEvent (.rbuttonup x y) d).ignrPts = [])
    ∧ (∀ (ps : List (List Point)) (l : List Point), d.ignrPts = ps ++ [l] → l ≠ [] →
        (onMouseEvent (.rbuttonup x y) d).ignrPts = ps ++ [l.dropLast])
    ∧ (∀ ps : List (List Point), d.ignrPts = ps ++ [([] : List Point)] →
        (onMouseEvent (.rbuttonup x y) d).ignrPts = ps) := by
  refine ⟨?_, ?_, ?_⟩
  · intro h; simp [onMouseEvent, hmode, h]
  · intro ps l hpl hl
    simp [onMouseEvent, hmode, hpl, List.getLastD_concat, List.isEmpty_iff, hl]
  · intro ps hpl
    simp [onMouseEvent, hmode, hpl, List.getLastD_concat, List.isEmpty_iff]

/-- C6 witness: the amended theorem evaluated on a two-point polygon. -/
theorem c6_witness :
    (onMouseEvent (.rbuttonup 1 1) twoPtPoly).ignrPts = [[(3, 4)]] := by
  have h := (c6_theorem twoPtPoly 1 1 rfl).2.1 [] [(3, 4), (5, 6)] rfl (by decide)
  simpa using h

/-! ### Claim C10 -/

theorem pairUp_append_even : ∀ (l : List Int) (x : Int), l.length % 2 = 0 →
    pairUp (l ++ [x]) = pairUp l
  | [], _, _ => by simp [pairUp]
  | [_], _, h => by simp at h
  | a :: b :: rest, x, h => by
    simp only [List.cons_append]
    show (a, b) :: pairUp (rest ++ [x]) = (a, b) :: pairUp rest
    rw [pairUp_append_even rest x (by simp at h; omega)]

/-- C10: persisted point sequences are loaded as consecutive coordinate
pairs of the flat int sequence, and an odd-length sequence is tolerated —
the trailing unpaired value is silently dropped; witnessed at all three
load sites (CircumferenceInit, IgnoreInit, RegionMethodInit) on concrete
odd-length stored sequences. -/
theorem c10_theorem :
    (∀ (a b : Int) (rest : List Int), pairUp (a :: b :: rest) = (a, b) :: pairUp rest)
    ∧ (∀ a : Int, pairUp [a] = [])
    ∧ pairUp ([] : List Int) = []
    ∧ (∀ (l : List Int) (x : Int), l.length % 2 = 0 → pairUp (l ++ [x]) = pairUp l)
    ∧ ((stepStage oracleTrue oddCircStart ⟨[], 0⟩).map (fun s => (s.input.circPts, s.input.mode))
        = some ([(10, 20), (30, 40), (50, 60)], .IGNR_INIT))
    ∧ ((stepStage oracleTrue oddIgnrStart ⟨[], 0⟩).map (fun s => (s.input.ignrPts, s.input.mode))
        = some ([[(1, 2), (3, 4)]], .R_INIT))
    ∧ ((stepStage oracleTrue oddSqrStart ⟨[], 0⟩).map (fun s => (s.input.sqrPts, s.input.mode))
        = some ([(1, 2), (3, 4), (5, 6), (7, 8)], .EXIT)) := by
  refine ⟨fun a b rest => rfl, fun a => rfl, rfl, pairUp_append_even, ?_, ?_, ?_⟩ <;> decide

/-- C10 witness: the odd-length tolerance applied to a concrete
even-length prefix plus trailing value. -/
theorem c10_witness :
    pairUp ([1, 2, 3, 4] ++ [9]) = pairUp [1, 2, 3, 4] :=
  c10_theorem.2.2.2.1 [1, 2, 3, 4] 9 (by decide)

theorem changeState_writes (m : INPUT_MODE) (s : GuiState) :
    (changeState m s).writes = s.writes := rfl

theorem changeState_open (m : INPUT_MODE) (s : GuiState) :
    (changeState m s).open_ = s.open_ := rfl

theorem finishCircInit_writes (s : GuiState) : (finishCircInit s).writes = s.writes := by
  unfold finishCircInit; split <;> rfl

theorem finishIgnrInit_writes (s : GuiState) : (finishIgnrInit s).writes = s.writes := by
  unfold finishIgnrInit; split <;> rfl

theorem finishRInit_writes (s : GuiState) : (finishRInit s).writes = s.writes := by
  unfold finishRInit; split <;> rfl

theorem commitWrite_open_of_fail (s : GuiState) (cfg' : ConfigStore)
    (hw : s.writes.head? = some false) : (commitWrite s cfg').open_ = false := by
  rcases hws : s.writes with _ | ⟨w, ws⟩
  · rw [hws] at hw; cases hw
  · rw [hws] at hw
    simp only [List.head?_cons, Option.some.injEq] at hw
    subst hw
    simp [commitWrite, popWrite, hws]

theorem stepCircInit_writes (o : GeomOracle) (s s' : GuiState)
    (h : stepCircInit o s = some s') : s'.writes = s.writes := by
  simp only [stepCircInit] at h
  repeat' split at h
  all_goals cases h
  all_goals simp [finishCircInit_writes, changeState_writes]

theorem stepIgnrInit_writes (s s' : GuiState)
    (h : stepIgnrInit s = some s') : s'.writes = s.writes := by
  simp only [stepIgnrInit] at h
  repeat' split at h
  all_goals cases h
  all_goals simp [finishIgnrInit_writes, changeState_writes]

theorem stepRInit_writes (s s' : GuiState)
    (h : stepRInit s = some s') : s'.writes = s.writes := by
  simp only [stepRInit] at h
  repeat' split at h
  all_goals cases h
  all_goals simp [finishRInit_writes, changeState_writes]

theorem stepRSlct_writes (s : GuiState) : (stepRSlct s).writes = s.writes := by
  simp only [stepRSlct]
  repeat' split <;> rfl

theorem stepCircPts_fail (o : GeomOracle) (s : GuiState) (k : Int)
    (hw : s.writes.head? = some false) :
    (stepCircPts o s k).writes = s.writes ∨ (stepCircPts o s k).open_ = false := by
  simp only [stepCircPts]
  repeat' split
  all_goals first
    | (left; rfl)
    | (right; rw [changeState_open]; exact commitWrite_open_of_fail _ _ hw)

theorem stepIgnrPts_fail (s : GuiState) (k : Int)
    (hw : s.writes.head? = some false) :
    (stepIgnrPts s k).writes = s.writes ∨ (stepIgnrPts s k).open_ = false := by
  simp only [stepIgnrPts]
  repeat' split
  all_goals first
    | (left; rfl)
    | (right
       rw [changeState_open]
       rcases hws : s.writes with _ | ⟨w, ws⟩
       · rw [hws] at hw; cases hw
       · rw [hws] at hw
         simp only [List.head?_cons, Option.some.injEq] at hw
         subst hw
         simp [commitWrite, popWrite, hws])

theorem saveC2A_flag_of_fail (s : GuiState) (hw : s.writes.head? = some false) :
    (saveC2ATransform s).2 = false := by
  rcases hws : s.writes with _ | ⟨w, ws⟩
  · rw [hws] at hw; cases hw
  · rw [hws] at hw
    simp only [List.head?_cons, Option.some.injEq] at hw
    subst hw
    simp [saveC2ATransform, popWrite, hws]

theorem applyFlush_open_false (t : GuiState) : (applyFlush t false).open_ = false := by
  simp [applyFlush]

theorem sqrCommit_open_of_fail (t : GuiState) (hw : t.writes.head? = some false) :
    (applyFlush (saveC2ATransform t).1 (saveC2ATransform t).2).open_ = false := by
  rw [saveC2A_flag_of_fail t hw, applyFlush_open_false]

theorem stepSqr_fail (o : GeomOracle) (s : GuiState) (k : Int)
    (hw : s.writes.head? = some false) :
    (stepSqr o s k).writes = s.writes ∨ (stepSqr o s k).open_ = false := by
  simp only [stepSqr]
  repeat' split
  all_goals first
    | (left; rfl)
    | (right; rw [changeState_open]; exact sqrCommit_open_of_fail _ hw)

theorem stepRExt_fail (s : GuiState)
    (hw : s.writes.head? = some false) : (stepRExt s).open_ = false := by
  simp only [stepRExt]
  rw [changeState_open]
  exact commitWrite_open_of_fail _ _ hw

theorem stepDispatch_fail (o : GeomOracle) (u : GuiState) (k : Int) (s' : GuiState)
    (hw : u.writes.head? = some false)
    (hstep : stepDispatch o u k = some s')
    (hlen : s'.writes.length < u.writes.length) : s'.open_ = false := by
  cases hm : u.input.mode <;> simp only [stepDispatch, hm] at hstep
  case CIRC_INIT =>
    rw [stepCircInit_writes o u s' hstep] at hlen
    exact absurd hlen (lt_irrefl _)
  case CIRC_PTS =>
    cases hstep
    rcases stepCircPts_fail o u k hw with hc | hc
    · rw [hc] at hlen; exact absurd hlen (lt_irrefl _)
    · exact hc
  case IGNR_INIT =>
    rw [stepIgnrInit_writes u s' hstep] at hlen
    exact absurd hlen (lt_irrefl _)
  case IGNR_PTS =>
    cases hstep
    rcases stepIgnrPts_fail u k hw with hc | hc
    · rw [hc] at hlen; exact absurd hlen (lt_irrefl _)
    · exact hc
  case R_INIT =>
    rw [stepRInit_writes u s' hstep] at hlen
    exact absurd hlen (lt_irrefl _)
  case R_SLCT =>
    cases hstep
    rw [stepRSlct_writes u] at hlen
    exact absurd hlen (lt_irrefl _)
  case R_XY =>
    cases hstep
    rcases stepSqr_fail o u k hw with hc | hc
    · rw [hc] at hlen; exact absurd hlen (lt_irrefl _)
    · exact hc
  case R_YZ =>
    cases hstep
    rcases stepSqr_fail o u k hw with hc | hc
    · rw [hc] at hlen; exact absurd hlen (lt_irrefl _)
    · exact hc
  case R_XZ =>
    cases hstep
    rcases stepSqr_fail o u k hw with hc | hc
    · rw [hc] at hlen; exact absurd hlen (lt_irrefl _)
    · exact hc
  case R_EXT =>
    cases hstep
    exact stepRExt_fail u hw
  case EXIT =>
    cases hstep
    exact absurd hlen (lt_irrefl _)

/-! ### Claim C3 -/

/-- C3, counterexample to the claim as stated: in a session whose
CircumferencePoints commit flush fails, the session is marked failed but
the loop does not continue to the Exit stage — with two further scripted
iterations available, the only stage bodies ever executed are
CircumferenceInit and CircumferencePoints, the Exit stage is never
reached, and the final state is left in IgnoreInit. -/
theorem c3_counterexample :
    (runSession oracleTrue circClickScript failingDiskStart).map
        (fun r => (r.final.input.mode, r.visited, r.final.open_, r.statusSuccess))
      = some (.IGNR_INIT, [.CIRC_INIT, .CIRC_PTS], false, false)
    ∧ INPUT_MODE.EXIT ∉ [INPUT_MODE.CIRC_INIT, INPUT_MODE.CIRC_PTS]
    ∧ INPUT_MODE.IGNR_INIT ≠ INPUT_MODE.EXIT := by
  refine ⟨by decide, by decide, by decide⟩

/-- C3, amended: a stage whose commit flush fails marks the session failed
(`_open` cleared), and the loop then terminates immediately — no further
stage body, including Exit's, executes; regardless of outcome, session end
always attempts the annotated snapshot write and reports the final status,
success exactly when the session was never marked failed. -/
theorem c3_theorem :
    (∀ (o : GeomOracle) (it : Iter) (s s' : GuiState),
      s.open_ = true → s.writes.head? = some false →
      stepStage o s it = some s' →
      s'.writes.length < s.writes.length → s'.open_ = false)
    ∧ (∀ (o : GeomOracle) (its : List Iter) (s : GuiState),
      s.open_ = false → loopRun o its s = some (s, []))
    ∧ (∀ (o : GeomOracle) (its : List Iter) (s : GuiState) (r : SessionResult),
      runSession o its s = some r →
      r.snapshotSaved = true ∧ r.statusSuccess = r.final.open_) := by
  refine ⟨?_, ?_, ?_⟩
  · intro o it s s' _ hw hstep hlen
    exact stepDispatch_fail o { s with input := applyMouse it.mouse s.input } it.key s'
      hw hstep hlen
  · intro o its s h
    cases its with
    | nil => rfl
    | cons it its => simp [loopRun, h]
  · intro o its s r h
    unfold runSession at h
    rcases hl : loopRun o its s with _ | p <;> rw [hl] at h
    · cases h
    · cases h
      exact ⟨rfl, rfl⟩

/-- C3 witness: the amended theorem exercised on concrete data — a failed
CircumferencePoints flush clears the open flag, the loop refuses to run
any iteration from a failed state, and a concrete finished session reports
snapshot and status. -/
theorem c3_witness :
    (stepStage oracleTrue circPtsReady ⟨[], enterKey⟩).map GuiState.open_ = some false
    ∧ loopRun oracleTrue [⟨[], 0⟩] failedState = some (failedState, [])
    ∧ (runSession oracleTrue [] failedState).map
        (fun r => (r.snapshotSaved, r.statusSuccess)) = some (true, false) := by
  refine ⟨?_, ?_, ?_⟩
  · have hproj : (stepStage oracleTrue circPtsReady ⟨[], enterKey⟩).map
        (fun x => x.writes.length) = some 0 := by decide
    rcases hs : stepStage oracleTrue circPtsReady ⟨[], enterKey⟩ with _ | s'
    · rw [hs] at hproj; cases hproj
    · rw [hs] at hproj
      simp only [Option.map_some', Option.some.injEq] at hproj
      have hfail := c3_theorem.1 oracleTrue ⟨[], enterKey⟩ circPtsReady s'
        (by decide) (by decide) hs (by rw [hproj]; decide)
      simp [hfail]
  · exact c3_theorem.2.1 oracleTrue [⟨[], 0⟩] failedState rfl
  · have h := c3_theorem.2.2 oracleTrue [] failedState
    rcases hr : runSession oracleTrue [] failedState with _ | r
    · exact absurd hr (by decide)
    · have h2 := h r hr
      have h3 : r.final.open_ = false := by
        have : (runSession oracleTrue [] failedState).map (fun x => x.final.open_)
            = some false := by decide
        rw [hr] at this
        simpa using this
      simp [h2.1, h2.2, h3]

/-! ### Claim C5 -/

/-- C5: in CircumferencePoints, a commit with at least 3 accumulated
points stores them under `roi_circ` as the flat sequence of rounded x,y
pairs in click order and advances to IgnoreInit, while a commit with fewer
than 3 points leaves stage, store and points unchanged (it only warns);
in the concrete scenario — empty config, clicks at (10,10), (50,10),
(30,40), Enter — the session's store afterwards holds
roi_circ = [10,10,50,10,30,40]. -/
theorem c5_theorem (o : GeomOracle) (s : GuiState)
    (hmode : s.input.mode = .CIRC_PTS) :
    (3 ≤ s.input.circPts.length →
      (stepStage o s ⟨[], enterKey⟩).map (fun t => (getVecInt t.cfg "roi_circ", t.input.mode))
        = some (some (flattenPts s.input.circPts), .IGNR_INIT))
    ∧ (s.input.circPts.length < 3 →
      (stepStage o s ⟨[], enterKey⟩).map (fun t => (t.input.mode, t.cfg, t.input.circPts))
        = some (.CIRC_PTS, s.cfg, s.input.circPts))
    ∧ ((runSession oracleTrue circClickScript healthyDiskStart).map
        (fun r => (getVecInt r.final.cfg "roi_circ", r.final.open_))
      = some (some [10, 10, 50, 10, 30, 40], true)) := by
  refine ⟨?_, ?_, by decide⟩
  · intro h3
    by_cases hne : s.input.newEvent = true <;>
      simp [stepStage, stepDispatch, applyMouse, hmode, stepCircPts, hne, h3,
            changeState, commitWrite, getVecInt_cfgAdd, enterKey]
  · intro h3
    have h3' : ¬(3 ≤ s.input.circPts.length) := by omega
    by_cases hne : s.input.newEvent = true <;>
      simp [stepStage, stepDispatch, applyMouse, hmode, stepCircPts, hne, h3',
            changeState, enterKey]

/-- C5 witness: the commit branch of the amended statement evaluated on a
concrete three-point state. -/
theorem c5_witness :
    (stepStage oracleTrue circPtsReady ⟨[], enterKey⟩).map
        (fun t => (getVecInt t.cfg "roi_circ", t.input.mode))
      = some (some (flattenPts circPtsReady.input.circPts), .IGNR_INIT) :=
  (c5_theorem oracleTrue circPtsReady rfl).1 (by decide)

/-! ### Claim C9 -/

/-- C9, counterexample to the claim as stated: in the ignore-region mode,
one left-click starting from zero polygons and one subsequent right-click
do not restore the zero-click state — an empty polygon is left behind. -/
theorem c9_counterexample :
    (onMouseEvent (.rbuttonup 0 0) (applyClicks [(12, 34)] noPoly)).ignrPts = [[]]
    ∧ (applyClicks ([] : List Point) noPoly).ignrPts = []
    ∧ (onMouseEvent (.rbuttonup 0 0) (applyClicks [(12, 34)] noPoly)).ignrPts
        ≠ (applyClicks ([] : List Point) noPoly).ignrPts := by
  refine ⟨by decide, by decide, by decide⟩

/-- C9, amended: after N left-clicks (N at least 1) one right-click
restores the point set of the first N-1 clicks in the circumference and
square-corner modes, and also in the ignore-region mode except when the
single click implicitly created the first polygon (zero polygons before,
N = 1): then an empty polygon remains instead of the empty polygon list.
A right-click at zero accumulated points leaves the point set unchanged
in every mode. -/
theorem c9_theorem (d : INPUT_DATA) (ps : List Point) (p : Point) (x y : Int) :
    (d.mode = .CIRC_PTS →
      (onMouseEvent (.rbuttonup x y) (applyClicks (ps ++ [p]) d)).circPts
          = (applyClicks ps d).circPts
      ∧ (d.circPts = [] → (onMouseEvent (.rbuttonup x y) d).circPts = []))
    ∧ ((d.mode = .R_XY ∨ d.mode = .R_YZ ∨ d.mode = .R_XZ) →
      (onMouseEvent (.rbuttonup x y) (applyClicks (ps ++ [p]) d)).sqrPts
          = (applyClicks ps d).sqrPts
      ∧ (d.sqrPts = [] → (onMouseEvent (.rbuttonup x y) d).sqrPts = []))
    ∧ (d.mode = .IGNR_PTS →
      (onMouseEvent (.rbuttonup x y) (applyClicks (ps ++ [p]) d)).ignrPts
          = (if d.ignrPts = [] ∧ ps = [] then [[]] else (applyClicks ps d).ignrPts)
      ∧ (d.ignrPts = [] → (onMouseEvent (.rbuttonup x y) d).ignrPts = [])) := by
  refine ⟨?_, ?_, ?_⟩
  · intro h
    constructor
    · have hm := applyClicks_mode (ps ++ [p]) d
      rw [h] at hm
      have hc := applyClicks_circ (ps ++ [p]) d h
      simp [onMouseEvent, hm, hc, applyClicks_circ ps d h, ← List.append_assoc]
    · intro h0; simp [onMouseEvent, h, h0]
  · intro h
    have hm := applyClicks_mode (ps ++ [p]) d
    have hc := applyClicks_sqr (ps ++ [p]) d h
    have hc' := applyClicks_sqr ps d h
    constructor
    · rcases h with h | h | h <;> rw [h] at hm <;>
        simp [onMouseEvent, hm, hc, hc', ← List.append_assoc]
    · rcases h with h | h | h <;> (intro h0; simp [onMouseEvent, h, h0])
  · intro h
    constructor
    · have hm := applyClicks_mode (ps ++ [p]) d
      rw [h] at hm
      rcases List.eq_nil_or_concat d.ignrPts with hq | ⟨qs, l, hq⟩
      on_goal 2 => rw [List.concat_eq_append] at hq
      · -- no polygons before the clicks: the first click creates one
        cases hps : ps with
        | nil =>
          subst hps
          have h1 : (applyClicks [p] d).ignrPts = [[p]] := by
            simpa using applyClicks_ignr_nil p [] d h hq
          have hm1 : (applyClicks [p] d).mode = .IGNR_PTS := by
            rw [applyClicks_mode]; exact h
          simp [onMouseEvent, hm1, h1, hq]
        | cons q qs' =>
          subst hps
          have h1 : (applyClicks ((q :: qs') ++ [p]) d).ignrPts = [q :: (qs' ++ [p])] := by
            simpa using applyClicks_ignr_nil q (qs' ++ [p]) d h hq
          have h2 : (applyClicks (q :: qs') d).ignrPts = [q :: qs'] :=
            applyClicks_ignr_nil q qs' d h hq
          have hm1 : (applyClicks ((q :: qs') ++ [p]) d).mode = .IGNR_PTS := by
            rw [applyClicks_mode]; exact h
          simp only [List.cons_append] at h1 hm1 ⊢
          have hlast : (q :: (qs' ++ [p])).dropLast = q :: qs' := by
            rw [← List.cons_append, List.dropLast_concat]
          simp [onMouseEvent, hm1, h1, h2, hq, hlast]
      · -- at least one polygon before the clicks
        have h1 : (applyClicks (ps ++ [p]) d).ignrPts = qs ++ [l ++ (ps ++ [p])] :=
          applyClicks_ignr (ps ++ [p]) qs l d h hq
        have h2 : (applyClicks ps d).ignrPts = qs ++ [l ++ ps] :=
          applyClicks_ignr ps qs l d h hq
        have hq' : d.ignrPts ≠ [] := by simp [hq]
        simp [onMouseEvent, hm, h1, h2, hq', List.getLastD_concat,
              List.dropLast_concat, ← List.append_assoc]
    · intro h0; simp [onMouseEvent, h, h0]

/-- C9 witness: the amended theorem evaluated in the circumference mode on
one prior point, one further click and a right-click. -/
theorem c9_witness :
    (onMouseEvent (.rbuttonup 0 0) (applyClicks ([(3, 4)] ++ [(5, 6)]) oneCircPt)).circPts
        = (applyClicks [(3, 4)] oneCircPt).circPts
    ∧ ((applyClicks ([(3, 4)] ++ [(5, 6)]) oneCircPt).circPts = [(1, 2), (3, 4), (5, 6)]) := by
  refine ⟨((c9_theorem oneCircPt [(3, 4)] (5, 6) 0 0).1 rfl).1, by decide⟩

/-! ### Claim C2 -/


/-- C2: `open` resolves the source by ordered trial — camera id exactly
when the token has at most 2 characters, parses as an integer and the
test capture succeeds; otherwise video on a successful test capture;
otherwise still-image decode — so at most one classification is assigned
(the first success), and the live flag holds exactly on the camera
path. -/
theorem c2_theorem (p : SourceProbe) (imgFrame : Frame) (vidW vidH camFPS : Int) :
    (classifySource p = .camera ↔
      (p.size ≤ 2 ∧ p.stoiOk = true ∧ p.camOpens = true ∧ p.camFrame = true))
    ∧ (classifySource p = .video ↔
      (¬(p.size ≤ 2 ∧ p.stoiOk = true ∧ p.camOpens = true ∧ p.camFrame = true)
        ∧ p.vidOpens = true ∧ p.vidFrame = true))
    ∧ (classifySource p = .image ↔
      (¬(p.size ≤ 2 ∧ p.stoiOk = true ∧ p.camOpens = true ∧ p.camFrame = true)
        ∧ ¬(p.vidOpens = true ∧ p.vidFrame = true) ∧ p.imreadOk = true))
    ∧ ((mkCVSource p imgFrame vidW vidH camFPS)._live = true ↔ classifySource p = .camera)
    ∧ ((mkCVSource p imgFrame vidW vidH camFPS)._open = true ↔ classifySource p ≠ .unresolved)
    ∧ ((mkCVSource p imgFrame vidW vidH camFPS)._is_image = true ↔ classifySource p = .image) := by
  by_cases h1 : (p.size ≤ 2 ∧ p.stoiOk = true ∧ p.camOpens = true ∧ p.camFrame = true) <;>
    by_cases h2 : (p.vidOpens = true ∧ p.vidFrame = true) <;>
    by_cases h3 : p.imreadOk = true <;>
    simp [classifySource, mkCVSource, h1, h2, h3]

/-! ### Claim C1 -/

/-- C1, counterexample to the claim as stated: on the image path `grab()`
does touch the capture backend — it queries `_cap->get(CAP_PROP_POS_MSEC)`
(CVSource.cpp line 195) unconditionally, so the backend-operation trace of
a grab on an open image source is not empty. -/
theorem c1_counterexample :
    (grab demoBayer imgSrc imgGrabEnv).ops = [CapOp.capGetPosMsec]
    ∧ (grab demoBayer imgSrc imgGrabEnv).ops ≠ [] := by
  constructor <;> decide

/-- C1, amended: for an open image source every `grab()` call succeeds and
returns the (shape- and colour-normalised, vertically flipped) cached
decode, leaving the cache unchanged and performing no backend frame read —
though it still queries the backend stream position; and a grab fails
exactly when the source is unopened or the source is streaming and the
backend read fails.  (The hypothesis on the cached row count excludes the
degenerate one-row image, for which the real code would attempt the
single-row reshape on the cache.) -/
theorem c1_theorem (d : BayerType → Frame → List Int) (s : CVState) (e : GrabEnv)
    (hopen : s._open = true) (himg : s._is_image = true) (hrow : s._frame_cap.rows ≠ 1) :
    (grab d s e).retFrame = some ((colorNormalize d s._bayerType s._frame_cap).flipVert)
    ∧ (grab d s e).state._frame_cap = s._frame_cap
    ∧ CapOp.capRead ∉ (grab d s e).ops
    ∧ (∀ (s' : CVState) (e' : GrabEnv),
        (grab d s' e').retFrame = none ↔
          (s'._open = false ∨ (s'._is_image = false ∧ e'.readOk = false))) := by
  refine ⟨?_, ?_, ?_, ?_⟩
  · simp [grab, hopen, himg, fixShape, hrow]
  · simp [grab, hopen, himg, fixShape, hrow]
  · simp [grab, hopen, himg]
  · intro s' e'
    cases ho : s'._open <;> cases hi : s'._is_image <;> cases hr : e'.readOk <;>
      simp [grab, ho, hi, hr]

/-- C1 witness: the amended theorem evaluated on the concrete image
source. -/
theorem c1_witness :
    (grab demoBayer imgSrc imgGrabEnv).retFrame
        = some ((colorNormalize demoBayer imgSrc._bayerType imgSrc._frame_cap).flipVert)
    ∧ (grab demoBayer imgSrc imgGrabEnv).state._frame_cap = imgSrc._frame_cap
    ∧ CapOp.capRead ∉ (grab demoBayer imgSrc imgGrabEnv).ops :=
  ⟨(c1_theorem demoBayer imgSrc imgGrabEnv rfl rfl (by decide)).1,
   (c1_theorem demoBayer imgSrc imgGrabEnv rfl rfl (by decide)).2.1,
   (c1_theorem demoBayer imgSrc imgGrabEnv rfl rfl (by decide)).2.2.1⟩

/-! ### Claim C4 -/

/-- C4, counterexample to the claim as stated: a single-row frame is
reshaped to the hard-coded 240 rows (CVSource.cpp line 201), not to the
source's configured height — here the source is configured at height 480
yet the stored frame ends up with 240 rows. -/
theorem c4_counterexample :
    (grab demoBayer vidSrc480 rowGrabEnv).state._frame_cap.rows = 240
    ∧ vidSrc480._height = 480
    ∧ ((grab demoBayer vidSrc480 rowGrabEnv).state._frame_cap.rows : Int)
        ≠ vidSrc480._height := by
  refine ⟨?_, rfl, ?_⟩ <;> decide

/-- C4, amended: any frame obtained by `grab()` whose pixel matrix has
exactly one row is reshaped, before further processing, to the fixed 240
rows hard-coded in the workaround, preserving the channel count (the
divisibility hypothesis is the precondition of the underlying
`cv::Mat::reshape`). -/
theorem c4_theorem (d : BayerType → Frame → List Int) (s : CVState) (e : GrabEnv)
    (hopen : s._open = true)
    (hread : s._is_image = true ∨ e.readOk = true)
    (hrow : (if s._is_image = true then s._frame_cap else e.readFrame).rows = 1)
    (hdiv : 240 ∣ (if s._is_image = true then s._frame_cap else e.readFrame).cols) :
    (grab d s e).state._frame_cap
      = (if s._is_image = true then s._frame_cap else e.readFrame).reshape
          (if s._is_image = true then s._frame_cap else e.readFrame).channels 240
    ∧ (grab d s e).state._frame_cap.rows = 240
    ∧ (grab d s e).state._frame_cap.channels
        = (if s._is_image = true then s._frame_cap else e.readFrame).channels := by
  cases hi : s._is_image with
  | true =>
    have hrow' : s._frame_cap.rows = 1 := by simpa [hi] using hrow
    refine ⟨?_, ?_, ?_⟩ <;> simp [grab, hopen, hi, fixShape, hrow', Frame.reshape]
  | false =>
    have hro : e.readOk = true := by
      rcases hread with h | h
      · rw [hi] at h; cases h
      · exact h
    have hrow' : e.readFrame.rows = 1 := by simpa [hi] using hrow
    refine ⟨?_, ?_, ?_⟩ <;> simp [grab, hopen, hi, hro, fixShape, hrow', Frame.reshape]

/-- C4 witness: the amended theorem evaluated on the defective single-row
read. -/
theorem c4_witness :
    (grab demoBayer vidSrc480 rowGrabEnv).state._frame_cap
      = (if vidSrc480._is_image = true then vidSrc480._frame_cap else rowGrabEnv.readFrame).reshape
          (if vidSrc480._is_image = true then vidSrc480._frame_cap else rowGrabEnv.readFrame).channels 240
    ∧ (grab demoBayer vidSrc480 rowGrabEnv).state._frame_cap.rows = 240
    ∧ (grab demoBayer vidSrc480 rowGrabEnv).state._frame_cap.channels
        = (if vidSrc480._is_image = true then vidSrc480._frame_cap else rowGrabEnv.readFrame).channels :=
  c4_theorem demoBayer vidSrc480 rowGrabEnv rfl (Or.inr rfl) (by decide) (by decide)

/-! ### Claim C8 -/

/-- C8, counterexample to the claim as stated: the returned success flag
of `setFPS` is not true when the backend accepts the rate — the local
`ret` is initialised to false and never reassigned (CVSource.cpp lines
117-132), so the call returns false even on acceptance. -/
theorem c8_counterexample :
    (setFPS vidSrc480 30 true 25).ret = false
    ∧ ¬((setFPS vidSrc480 30 true 25).ret = true) := by
  constructor <;> decide

/-- C8, amended: for an open source and a positive requested rate, a
backend rejection retains the requested value as the source's rate (for
playback pacing) and surfaces a warning, while acceptance stores the
backend-reported rate without warning; the returned flag, however, is
always false, regardless of acceptance. -/
theorem c8_theorem (s : CVState) (fps : Int) (acc : Bool) (dev : Int)
    (hopen : s._open = true) (hcap : s.capPresent = true) (hpos : 0 < fps) :
    (acc = false →
      (setFPS s fps acc dev).state._fps = fps ∧ (setFPS s fps acc dev).warned = true)
    ∧ (acc = true →
      (setFPS s fps acc dev).state._fps = dev ∧ (setFPS s fps acc dev).warned = false)
    ∧ (setFPS s fps acc dev).ret = false := by
  cases acc <;> simp [setFPS, getFPS, hopen, hcap, hpos]

/-- C8 witness: the amended theorem evaluated on a concrete rejected set
request. -/
theorem c8_witness :
    ((setFPS vidSrc480 30 false 25).state._fps = 30
      ∧ (setFPS vidSrc480 30 false 25).warned = true)
    ∧ (setFPS vidSrc480 30 false 25).ret = false :=
  ⟨(c8_theorem vidSrc480 30 false 25 rfl rfl (by decide)).1 rfl,
   (c8_theorem vidSrc480 30 false 25 rfl rfl (by decide)).2.2⟩

end FicTrac
